import Mathlib

/-!
# toa-email-backend: the request handlers of `server.js`

A shallow embedding of the Express application defined in `src/server.js`:
the in-memory subscriber `Map`, the seven routes and the rate-limiting
middleware in front of the two `POST` routes.

What is outside the file `server.js` is taken as an input of the model:

* the two library functions applied to strings, `validator.isEmail` and
  `String.prototype.toLowerCase`, are the fields of `Lib`;
* the mail transport (`transporter.sendMail`) and the clock (`new Date()`)
  are the fields of `World`, one value per request;
* `process.env` is `Config`.

A handler runs without interruption up to its `await`; other requests may be
handled before it resumes. Every write to the `Map` precedes the `await`, so
a sequence of requests acts on the store in their order of arrival, and a
response is given as a function of the `Map` at the moment it is written.

Static file serving (`express.static`), CORS and the HTML and e-mail
templates are not modelled.
-/

namespace ToaEmail

/-! ## JavaScript values -/

mutual
/-- A value obtained from a parsed JSON body or a parsed query string. A
property that is absent reads as `undefined`. -/
inductive JsValue where
  | undefined
  | null
  | bool (b : Bool)
  | num (n : Int)
  | str (s : String)
  | array (items : JsItems)
  | object (props : JsProps)
  deriving DecidableEq
/-- The elements of an array. -/
inductive JsItems where
  | nil
  | cons (head : JsValue) (tail : JsItems)
  deriving DecidableEq
/-- The own properties of an object. -/
inductive JsProps where
  | nil
  | cons (key : String) (value : JsValue) (tail : JsProps)
  deriving DecidableEq
end

/-- JavaScript truthiness, the test made by `!v`. -/
def JsValue.truthy : JsValue → Bool
  | .undefined => false
  | .null => false
  | .bool b => b
  | .num n => n != 0
  | .str s => s != ""
  | .array _ => true
  | .object _ => true

/-- Whether an object has an own property of that name. -/
def JsProps.hasOwn : JsProps → String → Bool
  | .nil, _ => false
  | .cons k _ tail, key => k == key || tail.hasOwn key

mutual
/-- Whether the conversion to a string made by a template literal `${v}`
completes. It throws a `TypeError` for an object that has an own property
`toString`: a parsed value is never callable, and the inherited `valueOf`
returns the object itself. An array is joined, which converts each of its
elements. -/
def JsValue.stringifies : JsValue → Bool
  | .array items => items.stringify
  | .object props => !props.hasOwn "toString"
  | _ => true
/-- Whether every element of an array converts to a string. -/
def JsItems.stringify : JsItems → Bool
  | .nil => true
  | .cons head tail => head.stringifies && tail.stringify
end

/-- An entry of `process.env` or of `req.headers`: a string, or `undefined`
when unset. -/
abbrev EnvVar := Option String

/-- The test `!process.env.X`: unset or the empty string. -/
def EnvVar.falsy : EnvVar → Bool
  | none => true
  | some s => s == ""

/-- The comparison `v === process.env.X` of a header or query value with an
environment entry: strict equality, so two `undefined` are equal. -/
def strictEq : JsValue → EnvVar → Bool
  | .undefined, none => true
  | .str a, some b => a == b
  | _, _ => false

/-- A header value as a JavaScript value. -/
def headerValue : Option String → JsValue
  | none => .undefined
  | some s => .str s

/-! ## Configuration, libraries and the outside world -/

/-- The entries of `process.env` read by `server.js`. -/
structure Config where
  EMAIL_USER : EnvVar
  EMAIL_PASS : EnvVar
  ADMIN_KEY : EnvVar
  PORT : EnvVar
  deriving DecidableEq

/-- The constant `PORT = process.env.PORT || 5000`. -/
def Config.port (cfg : Config) : JsValue :=
  match cfg.PORT with
  | some p => if p == "" then .num 5000 else .str p
  | none => .num 5000

/-- The library functions on strings used by the handlers. -/
structure Lib where
  /-- `validator.isEmail` on a string. -/
  isEmail : String → Bool
  /-- `String.prototype.toLowerCase`. -/
  toLowerCase : String → String

/-- The kinds of e-mail built by the handlers. -/
inductive MailKind where
  | adminNotification
  | confirmation
  | contactNotification
  deriving DecidableEq

/-- An e-mail handed to `transporter.sendMail`: its kind and its `to` field
(the recipients of the two notifications are fixed; the confirmation goes to
the submitted address). -/
structure Mail where
  kind : MailKind
  recipient : JsValue
  deriving DecidableEq

/-- What a request observes of the outside: the clock and the outcome of
each `sendMail` call (`true` when the promise resolves). -/
structure World where
  now : String
  sendMail : Mail → Bool

/-- A JavaScript exception. -/
inductive JsError where
  | typeError
  | error (message : String)
  deriving DecidableEq

/-! ## The subscriber store -/

/-- The object stored by `emailSubscribers.set`. -/
structure SubscriberRecord where
  email : String
  name : JsValue
  subscribedAt : String
  status : String
  deriving DecidableEq

/-- The `Map` `emailSubscribers`, as its entries in insertion order. -/
abbrev Store := List (String × SubscriberRecord)

/-- The initial `new Map()`. -/
def Store.empty : Store := []

/-- `emailSubscribers.has(key)`. -/
def Store.has (s : Store) (key : String) : Bool :=
  s.any (fun kv => kv.1 == key)

/-- `emailSubscribers.set(key, value)`: the value of an existing key is
replaced in place, a new key is appended. -/
def Store.set (s : Store) (key : String) (value : SubscriberRecord) : Store :=
  if s.has key then s.map (fun kv => if kv.1 == key then (key, value) else kv)
  else s ++ [(key, value)]

/-- `emailSubscribers.size`. -/
def Store.size (s : Store) : Nat := s.length

/-- `Array.from(emailSubscribers.values())`. -/
def Store.values (s : Store) : List SubscriberRecord := s.map Prod.snd

/-- `emailSubscribers.get(key)`. -/
def Store.get (s : Store) (key : String) : Option SubscriberRecord :=
  (s.find? (fun kv => kv.1 == key)).map Prod.snd

/-! ## Requests and responses -/

/-- The properties of `req.body` read by the two `POST` handlers. -/
structure ReqBody where
  email : JsValue := .undefined
  name : JsValue := .undefined
  message : JsValue := .undefined
  subject : JsValue := .undefined
  deriving DecidableEq

/-- A request to one of the routes of `server.js`. -/
inductive Request where
  | getRoot
  | getHealth
  | postSubscribe (body : ReqBody)
  | getSubscribersCount
  | getSubscribers (adminKey : Option String)
  | getAdmin (key : JsValue)
  | postContact (body : ReqBody)
  deriving DecidableEq

/-- The body of a response, one constructor per shape sent by `server.js`. -/
inductive Payload where
  /-- `{ message }` -/
  | info (message : String)
  /-- `{ success: true, message, timestamp, port }` -/
  | health (message : String) (timestamp : String) (port : JsValue)
  /-- `{ success, message }` -/
  | outcome (success : Bool) (message : String)
  /-- `{ success: true, message, totalSubscribers }` -/
  | subscribed (message : String) (totalSubscribers : Nat)
  /-- `{ success: true, count }` -/
  | count (count : Nat)
  /-- `{ success: true, subscribers, count }` -/
  | listing (subscribers : List SubscriberRecord) (count : Nat)
  /-- `{ error }`, the body sent by the rate limiter -/
  | limited (error : String)
  /-- `<h2>Unauthorized</h2>` -/
  | unauthorizedPage
  /-- the dashboard page, which embeds `process.env.ADMIN_KEY` -/
  | dashboard (embeddedKey : EnvVar)
  deriving DecidableEq

/-- The `success` field of a body, when it has one. -/
def Payload.success : Payload → Option Bool
  | .health _ _ _ => some true
  | .outcome b _ => some b
  | .subscribed _ _ => some true
  | .count _ => some true
  | .listing _ _ => some true
  | _ => none

/-- The subscriber records a body carries. -/
def Payload.subscriberData : Payload → List SubscriberRecord
  | .listing subs _ => subs
  | _ => []

/-- An HTTP response. -/
structure Response where
  status : Nat
  payload : Payload
  deriving DecidableEq

/-- What handling a request does: the store when the handler first yields,
the response as a function of the `Map` at the moment it is written, and the
e-mails handed to the transport. -/
structure Result where
  store : Store
  respond : Store → Response
  sent : List Mail

/-! ## The handlers -/

/-- Outcome of `createTransporter`: it throws when either credential is
unset or empty. -/
def createTransporter (cfg : Config) : Except JsError Unit :=
  if cfg.EMAIL_USER.falsy || cfg.EMAIL_PASS.falsy then
    .error (.error "Email credentials not found in environment variables")
  else .ok ()

/-- Outcome of `validateEmail`, that is `validator.isEmail(email)`: the
library asserts that its argument is a string and throws a `TypeError`
otherwise. -/
def validateEmail (lib : Lib) (email : JsValue) : Except JsError Bool :=
  match email with
  | .str s => .ok (lib.isEmail s)
  | _ => .error .typeError

/-- Outcome of `email.toLowerCase()`: a method of strings only. -/
def toLowerCase (lib : Lib) (email : JsValue) : Except JsError String :=
  match email with
  | .str s => .ok (lib.toLowerCase s)
  | _ => .error .typeError

/-- The binding `name = 'Anonymous'` of the destructuring: the default
applies to an absent property. -/
def nameOrDefault : JsValue → JsValue
  | .undefined => .str "Anonymous"
  | v => v

/-- The binding `subject = 'New Contact Form Submission'` of the
destructuring. -/
def subjectOrDefault : JsValue → JsValue
  | .undefined => .str "New Contact Form Submission"
  | v => v

/-- The object `adminEmail` of the subscribe handler, sent to the two fixed
recipients. -/
def adminEmail : Mail :=
  ⟨.adminNotification, .str "thetoacreatives@gmail.com, great.igbokwe.242981@gmail.com"⟩

/-- The object `confirmationEmail` of the subscribe handler: `to: email`, the
address as submitted. -/
def confirmationEmail (email : JsValue) : Mail := ⟨.confirmation, email⟩

/-- The object `contactEmail` of the contact handler, sent to the two fixed
recipients. -/
def contactEmail : Mail :=
  ⟨.contactNotification, .str "thetoacreatives@gmail.com, great.igbokwe.242981@gmail.com"⟩

/-- Building `adminEmail` and `confirmationEmail`: their templates
interpolate `name` and `email`, and throw when one does not convert to a
string. -/
def buildSubscribeEmails (name email : JsValue) : Except JsError (Mail × Mail) :=
  if name.stringifies && email.stringifies then .ok (adminEmail, confirmationEmail email)
  else .error .typeError

/-- Building `contactEmail`: its templates interpolate `subject`, `name`,
`email` and `message`, and throw when one does not convert to a string. -/
def buildContactEmail (name email message subject : JsValue) : Except JsError Mail :=
  if subject.stringifies && name.stringifies && email.stringifies && message.stringifies
  then .ok contactEmail
  else .error .typeError

/-- The `catch` branch of the subscribe handler. -/
def subscribeFailure : Response :=
  ⟨500, .outcome false "Failed to process subscription. Please try again later."⟩

/-- The `catch` branch of the contact handler. -/
def contactFailure : Response :=
  ⟨500, .outcome false "Failed to send message. Please try again later."⟩

/-- The handler of `POST /api/subscribe` (after the rate limiter). The
`totalSubscribers` of the 200 response is `emailSubscribers.size` read after
the `await`. -/
def subscribe (lib : Lib) (cfg : Config) (w : World) (store : Store)
    (body : ReqBody) : Result :=
  let email := body.email
  let name := nameOrDefault body.name
  if !email.truthy then
    ⟨store, fun _ => ⟨400, .outcome false "Email is required"⟩, []⟩
  else
    match validateEmail lib email with
    | .error _ => ⟨store, fun _ => subscribeFailure, []⟩
    | .ok false =>
      ⟨store, fun _ => ⟨400, .outcome false "Please provide a valid email address"⟩, []⟩
    | .ok true =>
      match toLowerCase lib email with
      | .error _ => ⟨store, fun _ => subscribeFailure, []⟩
      | .ok key =>
        if store.has key then
          ⟨store, fun _ => ⟨409, .outcome false
            "This email is already subscribed to our newsletter"⟩, []⟩
        else
          let store1 := store.set key
            { email := key, name := name, subscribedAt := w.now, status := "active" }
          match createTransporter cfg with
          | .error _ => ⟨store1, fun _ => subscribeFailure, []⟩
          | .ok _ =>
            match buildSubscribeEmails name email with
            | .error _ => ⟨store1, fun _ => subscribeFailure, []⟩
            | .ok mails =>
              if w.sendMail mails.1 && w.sendMail mails.2 then
                ⟨store1, fun afterAwait => ⟨200, .subscribed
                  "Successfully subscribed! Check your email for confirmation."
                  afterAwait.size⟩, [mails.1, mails.2]⟩
              else
                ⟨store1, fun _ => subscribeFailure, [mails.1, mails.2]⟩

/-- The handler of `POST /api/contact` (after the rate limiter). -/
def contact (lib : Lib) (cfg : Config) (w : World) (store : Store)
    (body : ReqBody) : Result :=
  let subject := subjectOrDefault body.subject
  if !body.name.truthy || !body.email.truthy || !body.message.truthy then
    ⟨store, fun _ => ⟨400, .outcome false "Name, email, and message are required"⟩, []⟩
  else
    match validateEmail lib body.email with
    | .error _ => ⟨store, fun _ => contactFailure, []⟩
    | .ok false =>
      ⟨store, fun _ => ⟨400, .outcome false "Please provide a valid email address"⟩, []⟩
    | .ok true =>
      match createTransporter cfg with
      | .error _ => ⟨store, fun _ => contactFailure, []⟩
      | .ok _ =>
        match buildContactEmail body.name body.email body.message subject with
        | .error _ => ⟨store, fun _ => contactFailure, []⟩
        | .ok mail =>
          if w.sendMail mail then
            ⟨store, fun _ => ⟨200, .outcome true
              "Thank you for your message! We'll get back to you soon."⟩, [mail]⟩
          else
            ⟨store, fun _ => contactFailure, [mail]⟩

/-- The handler of `GET /api/subscribers`. -/
def subscribers (cfg : Config) (store : Store) (adminKey : Option String) : Result :=
  if !strictEq (headerValue adminKey) cfg.ADMIN_KEY then
    ⟨store, fun _ => ⟨401, .outcome false "Unauthorized access"⟩, []⟩
  else
    ⟨store, fun _ => ⟨200, .listing store.values store.size⟩, []⟩

/-- The handler of `GET /admin`. -/
def admin (cfg : Config) (store : Store) (key : JsValue) : Result :=
  if !strictEq key cfg.ADMIN_KEY then
    ⟨store, fun _ => ⟨401, .unauthorizedPage⟩, []⟩
  else
    ⟨store, fun _ => ⟨200, .dashboard cfg.ADMIN_KEY⟩, []⟩

/-- The route table: the handler run for a request that reaches it. -/
def handle (lib : Lib) (cfg : Config) (w : World) (store : Store) : Request → Result
  | .getRoot =>
    ⟨store, fun _ =>
      ⟨200, .info "TOA Creatives Email Collection API is running on port 5000!"⟩, []⟩
  | .getHealth =>
    ⟨store, fun _ => ⟨200, .health "Server is healthy" w.now cfg.port⟩, []⟩
  | .postSubscribe body => subscribe lib cfg w store body
  | .getSubscribersCount => ⟨store, fun _ => ⟨200, .count store.size⟩, []⟩
  | .getSubscribers adminKey => subscribers cfg store adminKey
  | .getAdmin key => admin cfg store key
  | .postContact body => contact lib cfg w store body

/-- The routes that carry the `emailLimiter` middleware. -/
def Request.isWrite : Request → Bool
  | .postSubscribe _ => true
  | .postContact _ => true
  | _ => false

/-- The response of `emailLimiter` to a request it rejects. -/
def tooManyRequests : Response :=
  ⟨429, .limited "Too many email submissions from this IP, please try again later."⟩

/-- A request through its middleware: a write request that the limiter
does not admit is answered by the limiter and never reaches its handler. -/
def route (lib : Lib) (cfg : Config) (w : World) (store : Store)
    (admitted : Bool) (req : Request) : Result :=
  if req.isWrite && !admitted then ⟨store, fun _ => tooManyRequests, []⟩
  else handle lib cfg w store req

/-- One request as the server sees it: the outside world at that moment, the
verdict of the limiter and the request. -/
structure Event where
  world : World
  admitted : Bool
  request : Request

/-- The store after a sequence of requests. -/
def run (lib : Lib) (cfg : Config) (store : Store) : List Event → Store
  | [] => store
  | e :: es => run lib cfg (route lib cfg e.world store e.admitted e.request).store es

/-- A valid address for the handlers: a string that passes the presence test
`!email` and that `validator.isEmail` accepts. -/
def Lib.accepts (lib : Lib) (e : String) : Bool :=
  e != "" && lib.isEmail e

/-- The record written by a subscribe for the address `e`. -/
def newRecord (lib : Lib) (w : World) (body : ReqBody) (e : String) : SubscriberRecord :=
  { email := lib.toLowerCase e, name := nameOrDefault body.name,
    subscribedAt := w.now, status := "active" }

/-! ## A concrete instance of the library functions

Scenarios are evaluated with the ASCII action of `toLowerCase` and a plain
syntactic address check (`local@domain` with a dotted domain). -/

/-- Lower-casing of the ASCII letters. -/
def asciiLower (s : String) : String := ⟨s.data.map Char.toLower⟩

/-- A syntactic address check: one `@`, a nonempty local part, no blank, and
a domain with an inner dot. -/
def plainIsEmail (s : String) : Bool :=
  let cs := s.data
  let loc := cs.takeWhile (fun c => c != '@')
  match cs.dropWhile (fun c => c != '@') with
  | [] => false
  | _ :: dom =>
    !loc.isEmpty && !dom.contains '@' && !cs.contains ' ' && dom.contains '.'
      && dom.head? != some '.' && dom.getLast? != some '.'

/-- The library instance used in scenarios. -/
def sampleLib : Lib := ⟨plainIsEmail, asciiLower⟩

/-- A configuration with mail credentials and an admin secret. -/
def sampleConfig : Config :=
  ⟨some "thetoacreatives@gmail.com", some "app-password", some "s3cret", none⟩

/-- A configuration without mail credentials. -/
def noCredentials : Config := ⟨none, none, some "s3cret", none⟩

/-- A world in which every send succeeds. -/
def sendsSucceed : World := ⟨"2024-05-01T10:00:00.000Z", fun _ => true⟩

/-- A world in which every send fails. -/
def sendsFail : World := ⟨"2024-05-01T10:00:00.000Z", fun _ => false⟩

/-! ## The invariant of the store -/

/-- The invariant kept by the handlers: every entry is held under the
`email` of its record, that key is a lower-cased address, the status is
`active`, and no key occurs twice. -/
def StoreInv (lib : Lib) (s : Store) : Prop :=
  (∀ kv ∈ s, kv.2.email = kv.1 ∧ (∃ e, kv.1 = lib.toLowerCase e) ∧ kv.2.status = "active") ∧
  (s.map Prod.fst).Nodup

/-! ## The rate limiter

`emailLimiter` is built by the package `express-rate-limit`, which is not
part of the sources; its options are. The limiter is modelled from sections
3 and 4.2 of the specification, with the options of `server.js`. -/

/-- The option `windowMs: 15 * 60 * 1000` of `emailLimiter`. -/
def windowMs : Nat := 15 * 60 * 1000

/-- The option `max: 5` of `emailLimiter`. -/
def maxRequests : Nat := 5

/-- Modelled from the spec: the `RateLimitWindow` kept per source identity,
the start of its current window and the number of requests allowed in it
(the limiter itself, of the package `express-rate-limit`, is missing from the
sources). -/
structure RateLimitWindow where
  windowStart : Nat
  count : Nat
  deriving DecidableEq

/-- Modelled from the spec: the state of the `RateLimiter`, one window per
source identity seen so far (the package `express-rate-limit` is missing from
the sources). -/
abbrev RateLimiter := String → Option RateLimitWindow

/-- The limiter before any request. -/
def RateLimiter.empty : RateLimiter := fun _ => none

/-- Modelled from the spec: `allow(sourceId)` at the time `now`, for the
fixed-window limiter of section 4.2 (the package `express-rate-limit` is
missing from the sources). Within the current window of the source a request
is allowed while fewer than `max` have been; once the window has elapsed, or
when the source has none, the request opens a new window and is allowed. -/
def RateLimiter.allow (limiter : RateLimiter) (sourceId : String) (now : Nat) :
    Bool × RateLimiter :=
  match limiter sourceId with
  | some win =>
    if now < win.windowStart + windowMs then
      if win.count < maxRequests then
        (true, fun s =>
          if s = sourceId then some ⟨win.windowStart, win.count + 1⟩ else limiter s)
      else (false, limiter)
    else (true, fun s => if s = sourceId then some ⟨now, 1⟩ else limiter s)
  | none => (true, fun s => if s = sourceId then some ⟨now, 1⟩ else limiter s)

/-- The state of the process: the limiter and the subscriber store. -/
structure Server where
  limiter : RateLimiter
  store : Store

/-- A request as it arrives: its source identity, its arrival time in
milliseconds, the outside world at that moment and the request. -/
structure Arrival where
  source : String
  time : Nat
  world : World
  request : Request

/-- What serving an arrival does; the response is a function of the `Map`
at the moment it is written, as in `Result`. -/
structure Served where
  server : Server
  respond : Store → Response
  sent : List Mail

/-- One arrival through the application: the two `POST` routes consult the
limiter first, the other routes go to their handler. -/
def serve (lib : Lib) (cfg : Config) (σ : Server) (a : Arrival) : Served :=
  if a.request.isWrite then
    let verdict := σ.limiter.allow a.source a.time
    let r := route lib cfg a.world σ.store verdict.1 a.request
    ⟨⟨verdict.2, r.store⟩, r.respond, r.sent⟩
  else
    let r := handle lib cfg a.world σ.store a.request
    ⟨⟨σ.limiter, r.store⟩, r.respond, r.sent⟩

/-- The server after a sequence of arrivals. -/
def serveAll (lib : Lib) (cfg : Config) (σ : Server) : List Arrival → Server
  | [] => σ
  | a :: as => serveAll lib cfg (serve lib cfg σ a).server as

/-- An entry of the log of a sequence of arrivals: the server before the
arrival, the arrival, and what serving it did. -/
structure LogEntry where
  before : Server
  arrival : Arrival
  served : Served

/-- The log of a sequence of arrivals, in their order. -/
def serveLog (lib : Lib) (cfg : Config) (σ : Server) : List Arrival → List LogEntry
  | [] => []
  | a :: as => ⟨σ, a, serve lib cfg σ a⟩ :: serveLog lib cfg (serve lib cfg σ a).server as

/-- The write requests of a source among a sequence of arrivals. -/
def writesFrom (s : String) (as : List Arrival) : List Arrival :=
  as.filter (fun a => a.source == s && a.request.isWrite)

/-! ## Arrivals used in scenarios -/

/-- The source identity of the scenarios. -/
def client : String := "203.0.113.7"

/-- A burst after the opening request: four more write requests of `client`
within the window, with a request of another source and a count request in
between. -/
def burst : List Arrival :=
  [⟨client, 1000, sendsSucceed, .postContact ⟨.str "bob@x.com", .str "Bob", .str "hi", .undefined⟩⟩,
    ⟨"198.51.100.2", 2000, sendsSucceed, .postSubscribe { email := .str "eve@example.com" }⟩,
    ⟨client, 3000, sendsSucceed, .postSubscribe { email := .str "not-an-email" }⟩,
    ⟨client, 4000, sendsSucceed, .getSubscribersCount⟩,
    ⟨client, 5000, sendsSucceed, .postSubscribe { email := .str "test@example.com" }⟩,
    ⟨client, 899999, sendsSucceed, .postSubscribe { email := .str "ada@example.com" }⟩]

/-- What follows the burst inside the window: a sixth and a seventh write
request of `client`, with a subscribe of another source in between. -/
def excess : List Arrival :=
  [⟨client, 899999, sendsSucceed, .postSubscribe { email := .str "new@example.com" }⟩,
    ⟨"198.51.100.2", 899999, sendsSucceed, .postSubscribe { email := .str "bob@x.com" }⟩,
    ⟨client, 899999, sendsSucceed, .postContact ⟨.str "bob@x.com", .str "Bob", .str "hi", .undefined⟩⟩]

/-! ## Properties of the concrete instance -/

theorem toLower_toLower (c : Char) : Char.toLower (Char.toLower c) = Char.toLower c := by
  unfold Char.toLower
  simp only []
  split_ifs with h1 h2
  · exfalso
    obtain ⟨ha, hb⟩ := h1
    generalize c.toNat = n at ha hb h2
    have hn : n ∈ Finset.Icc 65 90 := by simp [Finset.mem_Icc]; omega
    clear ha hb
    revert h2
    revert n
    decide
  · rfl
  · rfl

theorem asciiLower_idem (s : String) : asciiLower (asciiLower s) = asciiLower s := by
  have h : Char.toLower ∘ Char.toLower = Char.toLower := funext toLower_toLower
  simp [asciiLower, h]

/-! ## The store -/

theorem Store.has_iff (s : Store) (k : String) :
    s.has k = true ↔ k ∈ s.map Prod.fst := by
  simp [Store.has, List.any_eq_true]

theorem Store.set_of_not_has (s : Store) (k : String) (v : SubscriberRecord)
    (h : s.has k = false) : s.set k v = s ++ [(k, v)] := by
  simp [Store.set, h]

theorem Store.has_append (s t : Store) (k : String) :
    Store.has (s ++ t) k = (s.has k || t.has k) := by
  simp [Store.has]

theorem Store.has_singleton (k k' : String) (v : SubscriberRecord) :
    Store.has [(k', v)] k = (k' == k) := by
  simp [Store.has]

theorem Store.get_append_of_get (s t : Store) (k : String) (v : SubscriberRecord)
    (h : s.get k = some v) : Store.get (s ++ t) k = some v := by
  unfold Store.get at h ⊢
  rw [List.find?_append]
  cases hf : List.find? (fun kv => kv.1 == k) s with
  | none => simp [hf] at h
  | some x => simpa [hf] using h

theorem Store.get_append_new (s : Store) (k : String) (v : SubscriberRecord)
    (h : s.has k = false) : Store.get (s ++ [(k, v)]) k = some v := by
  unfold Store.get
  rw [List.find?_append]
  have : List.find? (fun kv => kv.1 == k) s = none := by
    rw [List.find?_eq_none]
    intro x hx hk
    have : s.has k = true := by
      simp only [Store.has, List.any_eq_true]
      exact ⟨x, hx, hk⟩
    simp [h] at this
  simp [this]

/-! ## The subscribe handler, case by case -/

theorem accepts_iff (lib : Lib) (e : String) :
    lib.accepts e = true ↔ e ≠ "" ∧ lib.isEmail e = true := by
  simp [Lib.accepts]

theorem str_stringifies (e : String) : (JsValue.str e).stringifies = true := by
  simp [JsValue.stringifies]

theorem subscribe_rejects (lib : Lib) (cfg : Config) (w : World) (store : Store)
    (body : ReqBody) (e : String) (he : body.email = .str e)
    (h : lib.accepts e = false) :
    subscribe lib cfg w store body =
      ⟨store, fun _ => ⟨400, .outcome false (if e = "" then "Email is required"
        else "Please provide a valid email address")⟩, []⟩ := by
  by_cases hne : e = ""
  · simp [subscribe, he, JsValue.truthy, hne]
  · have hv : lib.isEmail e = false := by
      simpa [Lib.accepts, hne] using h
    simp [subscribe, he, JsValue.truthy, hne, validateEmail, hv]

theorem subscribe_duplicate (lib : Lib) (cfg : Config) (w : World) (store : Store)
    (body : ReqBody) (e : String) (he : body.email = .str e)
    (h : lib.accepts e = true) (hdup : store.has (lib.toLowerCase e) = true) :
    subscribe lib cfg w store body =
      ⟨store, fun _ => ⟨409, .outcome false
        "This email is already subscribed to our newsletter"⟩, []⟩ := by
  obtain ⟨hne, hv⟩ := (accepts_iff lib e).1 h
  simp [subscribe, he, JsValue.truthy, hne, validateEmail, hv, toLowerCase, hdup]

/-- The subscribe handler once the address is valid and new: the record is
appended, then the transporter, the templates and the sends decide. -/
theorem subscribe_new (lib : Lib) (cfg : Config) (w : World) (store : Store)
    (body : ReqBody) (e : String) (he : body.email = .str e)
    (h : lib.accepts e = true) (hnew : store.has (lib.toLowerCase e) = false) :
    subscribe lib cfg w store body =
      match createTransporter cfg with
      | .error _ =>
        ⟨store ++ [(lib.toLowerCase e, newRecord lib w body e)], fun _ => subscribeFailure, []⟩
      | .ok _ =>
        if (nameOrDefault body.name).stringifies then
          if w.sendMail adminEmail && w.sendMail (confirmationEmail (.str e)) then
            ⟨store ++ [(lib.toLowerCase e, newRecord lib w body e)],
              fun afterAwait => ⟨200, .subscribed
                "Successfully subscribed! Check your email for confirmation."
                afterAwait.size⟩, [adminEmail, confirmationEmail (.str e)]⟩
          else
            ⟨store ++ [(lib.toLowerCase e, newRecord lib w body e)],
              fun _ => subscribeFailure, [adminEmail, confirmationEmail (.str e)]⟩
        else
          ⟨store ++ [(lib.toLowerCase e, newRecord lib w body e)],
            fun _ => subscribeFailure, []⟩ := by
  obtain ⟨hne, hv⟩ := (accepts_iff lib e).1 h
  simp only [subscribe, he, JsValue.truthy, validateEmail, hv, toLowerCase, hnew,
    Store.set_of_not_has _ _ _ hnew, newRecord, buildSubscribeEmails, str_stringifies,
    Bool.and_true]
  have ht : (!(e != "")) = false := by simp [hne]
  simp only [ht, Bool.false_eq_true, if_false]
  cases createTransporter cfg with
  | error err => rfl
  | ok u =>
    cases hn : (nameOrDefault body.name).stringifies
    · simp
    · simp

theorem subscribe_new_store (lib : Lib) (cfg : Config) (w : World) (store : Store)
    (body : ReqBody) (e : String) (he : body.email = .str e)
    (h : lib.accepts e = true) (hnew : store.has (lib.toLowerCase e) = false) :
    (subscribe lib cfg w store body).store =
      store ++ [(lib.toLowerCase e, newRecord lib w body e)] := by
  rw [subscribe_new lib cfg w store body e he h hnew]
  split
  · rfl
  · split
    · split <;> rfl
    · rfl

theorem subscribe_new_ok (lib : Lib) (cfg : Config) (w : World) (store : Store)
    (body : ReqBody) (e : String) (he : body.email = .str e)
    (h : lib.accepts e = true) (hnew : store.has (lib.toLowerCase e) = false)
    (hcreds : createTransporter cfg = .ok ())
    (hname : (nameOrDefault body.name).stringifies = true)
    (hsend : w.sendMail adminEmail = true ∧
      w.sendMail (confirmationEmail (.str e)) = true) :
    subscribe lib cfg w store body =
      ⟨store ++ [(lib.toLowerCase e, newRecord lib w body e)],
        fun afterAwait => ⟨200, .subscribed
          "Successfully subscribed! Check your email for confirmation." afterAwait.size⟩,
        [adminEmail, confirmationEmail (.str e)]⟩ := by
  rw [subscribe_new lib cfg w store body e he h hnew, hcreds]
  simp [hname, hsend.1, hsend.2]

theorem subscribe_new_failed (lib : Lib) (cfg : Config) (w : World) (store : Store)
    (body : ReqBody) (e : String) (he : body.email = .str e)
    (h : lib.accepts e = true) (hnew : store.has (lib.toLowerCase e) = false)
    (hfail : createTransporter cfg ≠ .ok () ∨
      (nameOrDefault body.name).stringifies = false ∨
      w.sendMail adminEmail = false ∨
      w.sendMail (confirmationEmail (.str e)) = false) :
    (subscribe lib cfg w store body).respond = fun _ => subscribeFailure := by
  rw [subscribe_new lib cfg w store body e he h hnew]
  cases hc : createTransporter cfg with
  | error err => rfl
  | ok u =>
    rcases hfail with h0 | h0 | h1 | h2
    · exact absurd hc h0
    · simp [h0]
    · cases hn : (nameOrDefault body.name).stringifies <;> simp [h1]
    · cases hn : (nameOrDefault body.name).stringifies <;> simp [h2]

theorem subscribe_not_string (lib : Lib) (cfg : Config) (w : World) (store : Store)
    (body : ReqBody) (h : ∀ e, body.email ≠ .str e) :
    subscribe lib cfg w store body =
      ⟨store, fun _ => if body.email.truthy then subscribeFailure
        else ⟨400, .outcome false "Email is required"⟩, []⟩ := by
  cases hb : body.email with
  | str e => exact absurd hb (h e)
  | undefined => simp [subscribe, hb, JsValue.truthy]
  | null => simp [subscribe, hb, JsValue.truthy]
  | bool b => cases b <;> simp [subscribe, hb, JsValue.truthy, validateEmail]
  | num n =>
    by_cases hn : n = 0
    · simp [subscribe, hb, JsValue.truthy, hn]
    · simp [subscribe, hb, JsValue.truthy, hn, validateEmail]
  | array j => simp [subscribe, hb, JsValue.truthy, validateEmail]
  | object j => simp [subscribe, hb, JsValue.truthy, validateEmail]

/-! ## One request, and sequences of requests -/

theorem contact_store (lib : Lib) (cfg : Config) (w : World) (store : Store)
    (body : ReqBody) : (contact lib cfg w store body).store = store := by
  unfold contact
  dsimp only
  split
  · rfl
  · split
    · rfl
    · rfl
    · split
      · rfl
      · split
        · rfl
        · split <;> rfl

theorem route_store_cases (lib : Lib) (cfg : Config) (w : World) (store : Store)
    (admitted : Bool) (req : Request) :
    (route lib cfg w store admitted req).store = store ∨
    ∃ body e, req = .postSubscribe body ∧ admitted = true ∧ body.email = .str e ∧
      lib.accepts e = true ∧ store.has (lib.toLowerCase e) = false ∧
      (route lib cfg w store admitted req).store =
        store ++ [(lib.toLowerCase e, newRecord lib w body e)] := by
  cases req with
  | getRoot => left; cases admitted <;> rfl
  | getHealth => left; cases admitted <;> rfl
  | getSubscribersCount => left; cases admitted <;> rfl
  | getSubscribers k =>
    left
    cases admitted <;> simp only [route, Request.isWrite, handle, subscribers] <;>
      simp <;> split <;> rfl
  | getAdmin k =>
    left
    cases admitted <;> simp only [route, Request.isWrite, handle, admin] <;>
      simp <;> split <;> rfl
  | postContact body =>
    left
    cases admitted
    · rfl
    · simp [route, Request.isWrite, handle, contact_store]
  | postSubscribe body =>
    cases admitted
    · left; rfl
    · have hr : route lib cfg w store true (.postSubscribe body) =
          subscribe lib cfg w store body := by
        simp [route, Request.isWrite, handle]
      rw [hr]
      by_cases hs : ∃ e, body.email = .str e
      · obtain ⟨e, he⟩ := hs
        cases ha : lib.accepts e
        · left; rw [subscribe_rejects lib cfg w store body e he ha]
        · cases hd : store.has (lib.toLowerCase e)
          · right
            exact ⟨body, e, rfl, rfl, he, ha, hd,
              subscribe_new_store lib cfg w store body e he ha hd⟩
          · left; rw [subscribe_duplicate lib cfg w store body e he ha hd]
      · left
        rw [subscribe_not_string lib cfg w store body (fun e he => hs ⟨e, he⟩)]

theorem route_has_mono (lib : Lib) (cfg : Config) (w : World) (store : Store)
    (admitted : Bool) (req : Request) (k : String) (h : store.has k = true) :
    (route lib cfg w store admitted req).store.has k = true := by
  rcases route_store_cases lib cfg w store admitted req with h1 | ⟨_, _, _, _, _, _, _, h1⟩
  · rw [h1]; exact h
  · rw [h1, Store.has_append, h]; rfl

theorem run_has_mono (lib : Lib) (cfg : Config) (evs : List Event) :
    ∀ (store : Store) (k : String), store.has k = true →
      (run lib cfg store evs).has k = true := by
  induction evs with
  | nil => intro store k h; exact h
  | cons ev evs ih =>
    intro store k h
    exact ih _ k (route_has_mono lib cfg ev.world store ev.admitted ev.request k h)

theorem route_size_mono (lib : Lib) (cfg : Config) (w : World) (store : Store)
    (admitted : Bool) (req : Request) :
    store.size ≤ (route lib cfg w store admitted req).store.size := by
  rcases route_store_cases lib cfg w store admitted req with h1 | ⟨_, _, _, _, _, _, _, h1⟩
  · rw [h1]
  · rw [h1]; simp [Store.size]

theorem run_size_mono (lib : Lib) (cfg : Config) (evs : List Event) :
    ∀ store : Store, store.size ≤ (run lib cfg store evs).size := by
  induction evs with
  | nil => intro store; exact Nat.le_refl _
  | cons ev evs ih =>
    intro store
    exact Nat.le_trans (route_size_mono lib cfg ev.world store ev.admitted ev.request)
      (ih _)

/-! ## Subscribing once -/

/-- C1 as stated fails: from the empty store, `Test@Example.com` subscribes
and, while its two sends are pending, `bob@x.com` subscribes; the first
request is then answered 200 with `totalSubscribers` 2, not the previous
count plus one. -/
theorem overlapping_subscribes_count_both :
    Store.size Store.empty = 0 ∧
    (route sampleLib sampleConfig sendsSucceed Store.empty true
      (.postSubscribe { email := .str "Test@Example.com", name := .str "Ada" })).respond
      (run sampleLib sampleConfig
        (route sampleLib sampleConfig sendsSucceed Store.empty true
          (.postSubscribe { email := .str "Test@Example.com", name := .str "Ada" })).store
        [⟨sendsSucceed, true, .postSubscribe { email := .str "bob@x.com" }⟩]) =
      ⟨200, .subscribed "Successfully subscribed! Check your email for confirmation." 2⟩ := by
  decide

/-- C1 amended: for every store and every valid address `e` whose lower-cased
form is not a key, a subscribe that the limiter admits, whose `name` is
absent or converts to a string and whose two sends succeed adds one record
and answers 200 with `totalSubscribers` equal to the size of the store at the
moment the sends have settled: the previous size plus one when no other
request was handled meanwhile, and never less. After any further requests, a
subscribe with a valid address equal to `e` up to letter casing answers 409
and leaves the store, hence the count, as it was. -/
theorem subscribe_succeeds_exactly_once (lib : Lib) (cfg : Config) (w : World)
    (store : Store) (body : ReqBody) (e : String)
    (he : body.email = .str e) (hvalid : lib.accepts e = true)
    (hnew : store.has (lib.toLowerCase e) = false)
    (hcreds : createTransporter cfg = .ok ())
    (hname : (nameOrDefault body.name).stringifies = true)
    (hsend : w.sendMail adminEmail = true ∧
      w.sendMail (confirmationEmail (.str e)) = true) :
    (∀ afterAwait : Store,
      (route lib cfg w store true (.postSubscribe body)).respond afterAwait =
        ⟨200, .subscribed "Successfully subscribed! Check your email for confirmation."
          afterAwait.size⟩) ∧
    (route lib cfg w store true (.postSubscribe body)).store.size = store.size + 1 ∧
    (route lib cfg w store true (.postSubscribe body)).respond
        (route lib cfg w store true (.postSubscribe body)).store =
      ⟨200, .subscribed "Successfully subscribed! Check your email for confirmation."
        (store.size + 1)⟩ ∧
    (∀ meanwhile : List Event,
      store.size + 1 ≤ (run lib cfg
        (route lib cfg w store true (.postSubscribe body)).store meanwhile).size) ∧
    ∀ (later : List Event) (w' : World) (body' : ReqBody) (e' : String),
      body'.email = .str e' → lib.accepts e' = true →
      lib.toLowerCase e' = lib.toLowerCase e →
      (∀ afterAwait : Store,
        (route lib cfg w' (run lib cfg
            (route lib cfg w store true (.postSubscribe body)).store later)
          true (.postSubscribe body')).respond afterAwait =
          ⟨409, .outcome false "This email is already subscribed to our newsletter"⟩) ∧
      (route lib cfg w' (run lib cfg
          (route lib cfg w store true (.postSubscribe body)).store later)
        true (.postSubscribe body')).store =
        run lib cfg (route lib cfg w store true (.postSubscribe body)).store later := by
  have hr : ∀ (w0 : World) (s0 : Store) (b0 : ReqBody),
      route lib cfg w0 s0 true (.postSubscribe b0) = subscribe lib cfg w0 s0 b0 := by
    intro w0 s0 b0
    simp [route, Request.isWrite, handle]
  have hok := subscribe_new_ok lib cfg w store body e he hvalid hnew hcreds hname hsend
  have hsize : (subscribe lib cfg w store body).store.size = store.size + 1 := by
    rw [hok]; simp [Store.size]
  refine ⟨?_, ?_, ?_, ?_, ?_⟩
  · intro afterAwait
    rw [hr, hok]
  · rw [hr]; exact hsize
  · rw [hr, ← hsize, hok]
  · intro meanwhile
    rw [hr, ← hsize]
    exact run_size_mono lib cfg meanwhile _
  · intro later w' body' e' he' hv' hcase
    have hkey : (subscribe lib cfg w store body).store.has (lib.toLowerCase e) = true := by
      rw [hok, Store.has_append, Store.has_singleton]; simp
    have hlater := run_has_mono lib cfg later _ _ hkey
    rw [← hcase] at hlater
    rw [hr w store body, hr]
    rw [subscribe_duplicate lib cfg w' _ body' e' he' hv' hlater]
    exact ⟨fun _ => rfl, rfl⟩

/-- The scenario of C1: `Test@Example.com` is subscribed with
`totalSubscribers` 1, then `test@example.com` is answered 409. -/
theorem subscribe_succeeds_exactly_once_witness :
    (route sampleLib sampleConfig sendsSucceed Store.empty true
      (.postSubscribe { email := .str "Test@Example.com", name := .str "Ada" })).respond
      (route sampleLib sampleConfig sendsSucceed Store.empty true
        (.postSubscribe { email := .str "Test@Example.com", name := .str "Ada" })).store =
      ⟨200, .subscribed "Successfully subscribed! Check your email for confirmation." 1⟩ ∧
    ((route sampleLib sampleConfig sendsSucceed
      (run sampleLib sampleConfig
        (route sampleLib sampleConfig sendsSucceed Store.empty true
          (.postSubscribe { email := .str "Test@Example.com", name := .str "Ada" })).store [])
      true (.postSubscribe { email := .str "test@example.com" })).respond
        Store.empty).status = 409 := by
  have h := subscribe_succeeds_exactly_once sampleLib sampleConfig sendsSucceed Store.empty
    { email := .str "Test@Example.com", name := .str "Ada" } "Test@Example.com"
    rfl (by decide) (by decide) rfl (by decide) ⟨rfl, rfl⟩
  refine ⟨h.2.2.1, ?_⟩
  have h2 := (h.2.2.2.2 [] sendsSucceed { email := .str "test@example.com" }
    "test@example.com" rfl (by decide) (by decide)).1 Store.empty
  rw [h2]

/-! ## A failure after the insert -/

/-- C3: when a step after the insert throws during a subscribe for a valid,
previously unseen address `e` (the transporter cannot be created, a template
cannot be built because `name` does not convert to a string, or one of the
two sends fails), the response is the generic 500, the record for the
lower-cased `e` is in the store afterwards, and after any further requests a
subscribe with a valid address equal to `e` up to letter casing answers
409. -/
theorem subscribe_failure_keeps_record (lib : Lib) (cfg : Config) (w : World)
    (store : Store) (body : ReqBody) (e : String)
    (he : body.email = .str e) (hvalid : lib.accepts e = true)
    (hnew : store.has (lib.toLowerCase e) = false)
    (hfail : createTransporter cfg ≠ .ok () ∨
      (nameOrDefault body.name).stringifies = false ∨
      w.sendMail adminEmail = false ∨
      w.sendMail (confirmationEmail (.str e)) = false) :
    (∀ afterAwait : Store,
      (handle lib cfg w store (.postSubscribe body)).respond afterAwait =
        ⟨500, .outcome false "Failed to process subscription. Please try again later."⟩) ∧
    (handle lib cfg w store (.postSubscribe body)).store.get (lib.toLowerCase e) =
      some (newRecord lib w body e) ∧
    ∀ (later : List Event) (w' : World) (body' : ReqBody) (e' : String),
      body'.email = .str e' → lib.accepts e' = true →
      lib.toLowerCase e' = lib.toLowerCase e →
      ∀ afterAwait : Store,
        (handle lib cfg w' (run lib cfg
            (handle lib cfg w store (.postSubscribe body)).store later)
          (.postSubscribe body')).respond afterAwait =
          ⟨409, .outcome false "This email is already subscribed to our newsletter"⟩ := by
  have hst := subscribe_new_store lib cfg w store body e he hvalid hnew
  refine ⟨?_, ?_, ?_⟩
  · intro afterAwait
    show (subscribe lib cfg w store body).respond afterAwait = _
    rw [subscribe_new_failed lib cfg w store body e he hvalid hnew hfail]
    rfl
  · show (subscribe lib cfg w store body).store.get _ = _
    rw [hst]
    exact Store.get_append_new store _ _ hnew
  · intro later w' body' e' he' hv' hcase afterAwait
    have hkey : (subscribe lib cfg w store body).store.has (lib.toLowerCase e) = true := by
      rw [hst, Store.has_append, Store.has_singleton]; simp
    have hlater := run_has_mono lib cfg later _ _ hkey
    rw [← hcase] at hlater
    show (subscribe lib cfg w' (run lib cfg (subscribe lib cfg w store body).store later)
      body').respond afterAwait = _
    rw [subscribe_duplicate lib cfg w' _ body' e' he' hv' hlater]

/-- Two scenarios of C3 for `Test@Example.com`. With both sends failing, the
response is 500, the record is stored under `test@example.com`, and
`TEST@example.com` is then answered 409. With every send succeeding and the
name `{"toString": 1}`, the templates cannot be built: the response is 500 and
the record is stored. -/
theorem subscribe_failure_keeps_record_witness :
    ((handle sampleLib sampleConfig sendsFail Store.empty
      (.postSubscribe { email := .str "Test@Example.com" })).respond Store.empty).status
      = 500 ∧
    (handle sampleLib sampleConfig sendsFail Store.empty
      (.postSubscribe { email := .str "Test@Example.com" })).store.get "test@example.com" =
      some ⟨"test@example.com", .str "Anonymous", "2024-05-01T10:00:00.000Z", "active"⟩ ∧
    ((handle sampleLib sampleConfig sendsSucceed
      (run sampleLib sampleConfig (handle sampleLib sampleConfig sendsFail Store.empty
        (.postSubscribe { email := .str "Test@Example.com" })).store [])
      (.postSubscribe { email := .str "TEST@example.com" })).respond Store.empty).status
      = 409 ∧
    ((handle sampleLib sampleConfig sendsSucceed Store.empty
      (.postSubscribe ⟨.str "Test@Example.com",
        .object (.cons "toString" (.num 1) .nil), .undefined, .undefined⟩)).respond Store.empty).status
      = 500 ∧
    (handle sampleLib sampleConfig sendsSucceed Store.empty
      (.postSubscribe ⟨.str "Test@Example.com",
        .object (.cons "toString" (.num 1) .nil), .undefined, .undefined⟩)).store.get "test@example.com" =
      some ⟨"test@example.com", .object (.cons "toString" (.num 1) .nil),
        "2024-05-01T10:00:00.000Z", "active"⟩ := by
  have h := subscribe_failure_keeps_record sampleLib sampleConfig sendsFail Store.empty
    { email := .str "Test@Example.com" } "Test@Example.com"
    rfl (by decide) (by decide) (Or.inr (Or.inr (Or.inl rfl)))
  have hn := subscribe_failure_keeps_record sampleLib sampleConfig sendsSucceed Store.empty
    ⟨.str "Test@Example.com", .object (.cons "toString" (.num 1) .nil), .undefined, .undefined⟩
    "Test@Example.com" rfl (by decide) (by decide) (Or.inr (Or.inl (by decide)))
  refine ⟨?_, ?_, ?_, ?_, ?_⟩
  · rw [h.1]
  · exact h.2.1
  · rw [h.2.2 [] sendsSucceed { email := .str "TEST@example.com" } "TEST@example.com"
      rfl (by decide) (by decide)]
  · rw [hn.1]
  · exact hn.2.1

/-! ## Validation -/

theorem contact_rejects (lib : Lib) (cfg : Config) (w : World) (store : Store)
    (body : ReqBody) (e : String) (he : body.email = .str e)
    (h : lib.accepts e = false) (afterAwait : Store) :
    ((contact lib cfg w store body).respond afterAwait).status = 400 ∧
    ((contact lib cfg w store body).respond afterAwait).payload.success = some false ∧
    (contact lib cfg w store body).sent = [] := by
  by_cases hmiss : (!body.name.truthy || !body.email.truthy || !body.message.truthy) = true
  · simp only [contact, if_pos hmiss]
    refine ⟨?_, ?_, ?_⟩ <;> first | rfl | trivial
  · have hne : e ≠ "" := by
      intro h0
      apply hmiss
      simp [he, h0, JsValue.truthy]
    have hv : validateEmail lib body.email = .ok false := by
      have : lib.isEmail e = false := by simpa [Lib.accepts, hne] using h
      simp [he, validateEmail, this]
    simp only [contact, if_neg hmiss, hv]
    refine ⟨?_, ?_, ?_⟩ <;> first | rfl | trivial

/-- C5: for every malformed address string `s` (the empty string, or a
string that `validator.isEmail` rejects), the subscribe handler and the
contact handler both answer 400, leave the store as it was and dispatch no
e-mail, whatever the other fields, the configuration and the store. -/
theorem malformed_email_rejected (lib : Lib) (cfg : Config) (w : World)
    (store : Store) (body : ReqBody) (s : String)
    (he : body.email = .str s) (hbad : lib.accepts s = false) :
    ((∀ afterAwait : Store,
        ((handle lib cfg w store (.postSubscribe body)).respond afterAwait).status = 400) ∧
      (handle lib cfg w store (.postSubscribe body)).store = store ∧
      (handle lib cfg w store (.postSubscribe body)).sent = []) ∧
    ((∀ afterAwait : Store,
        ((handle lib cfg w store (.postContact body)).respond afterAwait).status = 400) ∧
      (handle lib cfg w store (.postContact body)).store = store ∧
      (handle lib cfg w store (.postContact body)).sent = []) := by
  constructor
  · have hs : handle lib cfg w store (.postSubscribe body) =
        subscribe lib cfg w store body := rfl
    rw [hs, subscribe_rejects lib cfg w store body s he hbad]
    exact ⟨fun _ => rfl, rfl, rfl⟩
  · exact ⟨fun afterAwait => (contact_rejects lib cfg w store body s he hbad afterAwait).1,
      contact_store lib cfg w store body,
      (contact_rejects lib cfg w store body s he hbad store).2.2⟩

/-- The examples of C5: `not-an-email` sent to both routes, with the other
contact fields filled in and one subscriber already stored. -/
theorem malformed_email_rejected_witness :
    (((handle sampleLib sampleConfig sendsSucceed
        [("ada@example.com", ⟨"ada@example.com", .str "Ada", "2024-04-30T09:00:00.000Z", "active"⟩)]
        (.postSubscribe ⟨.str "not-an-email", .str "Bob", .str "hi", .undefined⟩)).respond
        Store.empty).status = 400 ∧
      (handle sampleLib sampleConfig sendsSucceed
        [("ada@example.com", ⟨"ada@example.com", .str "Ada", "2024-04-30T09:00:00.000Z", "active"⟩)]
        (.postSubscribe ⟨.str "not-an-email", .str "Bob", .str "hi", .undefined⟩)).store =
        [("ada@example.com", ⟨"ada@example.com", .str "Ada", "2024-04-30T09:00:00.000Z", "active"⟩)] ∧
      (handle sampleLib sampleConfig sendsSucceed
        [("ada@example.com", ⟨"ada@example.com", .str "Ada", "2024-04-30T09:00:00.000Z", "active"⟩)]
        (.postSubscribe ⟨.str "not-an-email", .str "Bob", .str "hi", .undefined⟩)).sent = []) ∧
    (((handle sampleLib sampleConfig sendsSucceed
        [("ada@example.com", ⟨"ada@example.com", .str "Ada", "2024-04-30T09:00:00.000Z", "active"⟩)]
        (.postContact ⟨.str "not-an-email", .str "Bob", .str "hi", .undefined⟩)).respond
        Store.empty).status = 400 ∧
      (handle sampleLib sampleConfig sendsSucceed
        [("ada@example.com", ⟨"ada@example.com", .str "Ada", "2024-04-30T09:00:00.000Z", "active"⟩)]
        (.postContact ⟨.str "not-an-email", .str "Bob", .str "hi", .undefined⟩)).store =
        [("ada@example.com", ⟨"ada@example.com", .str "Ada", "2024-04-30T09:00:00.000Z", "active"⟩)] ∧
      (handle sampleLib sampleConfig sendsSucceed
        [("ada@example.com", ⟨"ada@example.com", .str "Ada", "2024-04-30T09:00:00.000Z", "active"⟩)]
        (.postContact ⟨.str "not-an-email", .str "Bob", .str "hi", .undefined⟩)).sent = []) := by
  have h := malformed_email_rejected sampleLib sampleConfig sendsSucceed
    [("ada@example.com", ⟨"ada@example.com", .str "Ada", "2024-04-30T09:00:00.000Z", "active"⟩)]
    ⟨.str "not-an-email", .str "Bob", .str "hi", .undefined⟩ "not-an-email" rfl (by decide)
  exact ⟨⟨h.1.1 Store.empty, h.1.2⟩, ⟨h.2.1 Store.empty, h.2.2⟩⟩

/-- The strings named by the spec are malformed for the concrete instance. -/
theorem named_examples_malformed :
    sampleLib.accepts "not-an-email" = false ∧ sampleLib.accepts "" = false ∧
    sampleLib.accepts "a@b" = false ∧ sampleLib.accepts "bob@x.com" = true := by
  decide

/-- C7, the code at a non-string e-mail: a body whose `email` is the number
123 is answered by the `catch` branch, status 500, although the claim asks
for 400; the store is left as it was. -/
theorem subscribe_number_email_answers_500 (lib : Lib) (cfg : Config) (w : World)
    (store afterAwait : Store) :
    (handle lib cfg w store (.postSubscribe { email := .num 123 })).respond afterAwait =
      ⟨500, .outcome false "Failed to process subscription. Please try again later."⟩ ∧
    (handle lib cfg w store (.postSubscribe { email := .num 123 })).store = store := by
  constructor <;> rfl

/-- Every truthy non-string `email` takes the same path: `validateEmail`
throws and the handlers answer 500. -/
theorem non_string_email_answers_500 (lib : Lib) (cfg : Config) (w : World)
    (store : Store) (body : ReqBody) (h : ∀ e, body.email ≠ .str e)
    (ht : body.email.truthy = true) (afterAwait : Store) :
    ((handle lib cfg w store (.postSubscribe body)).respond afterAwait).status = 500 := by
  show ((subscribe lib cfg w store body).respond afterAwait).status = 500
  rw [subscribe_not_string lib cfg w store body h]
  simp [ht, subscribeFailure]

/-- With a string `email` the subscribe handler answers 400 for a missing or
invalid address, and 409 exactly for a valid one already stored. -/
theorem subscribe_string_email_status (lib : Lib) (cfg : Config) (w : World)
    (store : Store) (body : ReqBody) (e : String) (he : body.email = .str e)
    (afterAwait : Store) :
    (lib.accepts e = false →
      ((handle lib cfg w store (.postSubscribe body)).respond afterAwait).status = 400) ∧
    (((handle lib cfg w store (.postSubscribe body)).respond afterAwait).status = 409 ↔
      (lib.accepts e = true ∧ store.has (lib.toLowerCase e) = true)) := by
  constructor
  · intro h
    show ((subscribe lib cfg w store body).respond afterAwait).status = 400
    rw [subscribe_rejects lib cfg w store body e he h]
  · show ((subscribe lib cfg w store body).respond afterAwait).status = 409 ↔ _
    cases ha : lib.accepts e
    · rw [subscribe_rejects lib cfg w store body e he ha]; simp
    · cases hd : store.has (lib.toLowerCase e)
      · rw [subscribe_new lib cfg w store body e he ha hd]
        simp only [Bool.false_eq_true, and_false, iff_false]
        split
        · simp [subscribeFailure]
        · split
          · split <;> simp [subscribeFailure]
          · simp [subscribeFailure]
      · rw [subscribe_duplicate lib cfg w store body e he ha hd]; simp

/-! ## The subscriber listing -/

/-- C2, the code with no admin secret configured: a request without the
`x-admin-key` header is answered 200 with the whole subscriber list, although
the claim asks for 401 and no subscriber data. -/
theorem subscribers_open_when_secret_unset (lib : Lib) (w : World)
    (store afterAwait : Store) (user pass port : EnvVar) :
    (handle lib ⟨user, pass, none, port⟩ w store (.getSubscribers none)).respond afterAwait =
      ⟨200, .listing store.values store.size⟩ ∧
    ((handle lib ⟨user, pass, none, port⟩ w store
      (.getSubscribers none)).respond afterAwait).payload.subscriberData = store.values := by
  constructor <;> rfl

/-- With a secret configured, the listing is given to the matching header
only: 200 with a list as long as `count` and as the store; any other header,
or none, gets 401 and no subscriber data. -/
theorem subscribers_when_secret_set (lib : Lib) (cfg : Config) (w : World)
    (store afterAwait : Store) (secret : String) (hk : cfg.ADMIN_KEY = some secret)
    (adminKey : Option String) :
    (adminKey = some secret →
      (handle lib cfg w store (.getSubscribers adminKey)).respond afterAwait =
        ⟨200, .listing store.values store.size⟩ ∧
      store.values.length = store.size) ∧
    (adminKey ≠ some secret →
      (handle lib cfg w store (.getSubscribers adminKey)).respond afterAwait =
        ⟨401, .outcome false "Unauthorized access"⟩ ∧
      ((handle lib cfg w store (.getSubscribers adminKey)).respond
        afterAwait).payload.subscriberData = []) := by
  constructor
  · intro h
    subst h
    simp [handle, subscribers, headerValue, strictEq, hk, Store.values, Store.size]
  · intro h
    cases adminKey with
    | none => simp [handle, subscribers, headerValue, strictEq, hk, Payload.subscriberData]
    | some k =>
      have hne : k ≠ secret := fun hks => h (by rw [hks])
      simp [handle, subscribers, headerValue, strictEq, hk, hne, Payload.subscriberData]

/-- The dashboard route compares in the same way: with no admin secret
configured and no `key` query parameter it sends the dashboard, status 200. -/
theorem admin_open_when_secret_unset (lib : Lib) (w : World)
    (store afterAwait : Store) (user pass port : EnvVar) :
    (handle lib ⟨user, pass, none, port⟩ w store (.getAdmin .undefined)).respond afterAwait =
      ⟨200, .dashboard none⟩ := by
  rfl

/-! ## Missing mail credentials -/

theorem createTransporter_absent (cfg : Config)
    (h : cfg.EMAIL_USER.falsy = true ∨ cfg.EMAIL_PASS.falsy = true) :
    createTransporter cfg =
      .error (.error "Email credentials not found in environment variables") := by
  rcases h with h | h <;> simp [createTransporter, h]

/-- The contact handler once the three fields are present and the address
is valid: the transporter, the template and the send decide. -/
theorem contact_valid (lib : Lib) (cfg : Config) (w : World) (store : Store)
    (body : ReqBody) (e : String) (he : body.email = .str e)
    (h : lib.accepts e = true) (hn : body.name.truthy = true)
    (hm : body.message.truthy = true) :
    contact lib cfg w store body =
      match createTransporter cfg with
      | .error _ => ⟨store, fun _ => contactFailure, []⟩
      | .ok _ =>
        if (subjectOrDefault body.subject).stringifies && body.name.stringifies &&
            body.message.stringifies then
          if w.sendMail contactEmail then
            ⟨store, fun _ => ⟨200, .outcome true
              "Thank you for your message! We'll get back to you soon."⟩, [contactEmail]⟩
          else ⟨store, fun _ => contactFailure, [contactEmail]⟩
        else ⟨store, fun _ => contactFailure, []⟩ := by
  obtain ⟨hne, hv⟩ := (accepts_iff lib e).1 h
  have hhe : body.email.truthy = true := by rw [he]; simp [JsValue.truthy, hne]
  have hmiss : ¬ (!body.name.truthy || !body.email.truthy || !body.message.truthy) = true := by
    simp [hn, hm, hhe]
  have hval : validateEmail lib body.email = .ok true := by
    simp [he, validateEmail, hv]
  simp only [contact, if_neg hmiss, hval, buildContactEmail]
  cases createTransporter cfg with
  | error err => rfl
  | ok u =>
    have hes : body.email.stringifies = true := by rw [he]; exact str_stringifies e
    cases h1 : (subjectOrDefault body.subject).stringifies <;>
      cases h2 : body.name.stringifies <;>
      cases h3 : body.message.stringifies <;> simp [hes]

theorem handle_sent_without_transporter (lib : Lib) (cfg : Config) (w : World)
    (store : Store) (req : Request)
    (h : createTransporter cfg =
      .error (.error "Email credentials not found in environment variables")) :
    (handle lib cfg w store req).sent = [] := by
  cases req with
  | getRoot => rfl
  | getHealth => rfl
  | getSubscribersCount => rfl
  | getSubscribers k => simp only [handle, subscribers]; split <;> rfl
  | getAdmin k => simp only [handle, admin]; split <;> rfl
  | postContact body =>
    simp only [handle, contact, h]
    split
    · rfl
    · split <;> rfl
  | postSubscribe body =>
    simp only [handle, subscribe, h]
    split
    · rfl
    · split
      · rfl
      · rfl
      · split
        · rfl
        · split <;> rfl

/-- C4 as stated fails: with both mail credentials unset the health route
still answers 200 with `success: true`, and a subscribe for a new valid
address still adds its record to the store. -/
theorem no_credentials_still_serves :
    (handle sampleLib noCredentials sendsSucceed Store.empty .getHealth).respond Store.empty =
      ⟨200, .health "Server is healthy" "2024-05-01T10:00:00.000Z" (.num 5000)⟩ ∧
    (handle sampleLib noCredentials sendsSucceed Store.empty
      (.postSubscribe { email := .str "test@example.com" })).store =
      [("test@example.com",
        ⟨"test@example.com", .str "Anonymous", "2024-05-01T10:00:00.000Z", "active"⟩)] := by
  decide

/-- C4 amended: when a mail credential is absent (unset or empty) the
service still answers every route, and the credentials are only looked at
by `createTransporter` inside the two `POST` handlers. No request dispatches
an e-mail; a route without the limiter answers exactly as it does with any
other credentials; a contact that passes validation is answered the generic
500 with the store unchanged; a subscribe that passes validation and the
duplicate check is answered the generic 500 after its record was added. -/
theorem missing_credentials_checked_per_request (lib : Lib) (cfg : Config)
    (w : World) (store : Store)
    (habsent : cfg.EMAIL_USER.falsy = true ∨ cfg.EMAIL_PASS.falsy = true) :
    (∀ (admitted : Bool) (req : Request),
      (route lib cfg w store admitted req).sent = []) ∧
    (∀ (admitted : Bool) (req : Request) (user pass : EnvVar), req.isWrite = false →
      route lib cfg w store admitted req =
        route lib ⟨user, pass, cfg.ADMIN_KEY, cfg.PORT⟩ w store admitted req) ∧
    (∀ (body : ReqBody) (e : String), body.email = .str e → lib.accepts e = true →
      body.name.truthy = true → body.message.truthy = true →
      handle lib cfg w store (.postContact body) =
        ⟨store, fun _ =>
          ⟨500, .outcome false "Failed to send message. Please try again later."⟩, []⟩) ∧
    (∀ (body : ReqBody) (e : String), body.email = .str e → lib.accepts e = true →
      store.has (lib.toLowerCase e) = false →
      handle lib cfg w store (.postSubscribe body) =
        ⟨store ++ [(lib.toLowerCase e, newRecord lib w body e)], fun _ =>
          ⟨500, .outcome false "Failed to process subscription. Please try again later."⟩,
          []⟩) := by
  have hct := createTransporter_absent cfg habsent
  refine ⟨?_, ?_, ?_, ?_⟩
  · intro admitted req
    unfold route
    split
    · rfl
    · exact handle_sent_without_transporter lib cfg w store req hct
  · intro admitted req user pass hw
    cases req with
    | getRoot => rfl
    | getHealth => rfl
    | getSubscribersCount => rfl
    | getSubscribers k => rfl
    | getAdmin k => rfl
    | postContact body => simp [Request.isWrite] at hw
    | postSubscribe body => simp [Request.isWrite] at hw
  · intro body e he ha hn hm
    show contact lib cfg w store body = _
    rw [contact_valid lib cfg w store body e he ha hn hm, hct]
    rfl
  · intro body e he ha hnew
    show subscribe lib cfg w store body = _
    rw [subscribe_new lib cfg w store body e he ha hnew, hct]
    rfl

/-- A scenario of C4 amended, with no credentials configured: the contact of
Bob dispatches nothing and gets 500, and so does a first subscribe, whose
record is stored. -/
theorem missing_credentials_checked_per_request_witness :
    (route sampleLib noCredentials sendsSucceed Store.empty true
      (.postContact ⟨.str "bob@x.com", .str "Bob", .str "hi", .undefined⟩)).sent = [] ∧
    handle sampleLib noCredentials sendsSucceed Store.empty
      (.postContact ⟨.str "bob@x.com", .str "Bob", .str "hi", .undefined⟩) =
      ⟨[], fun _ =>
        ⟨500, .outcome false "Failed to send message. Please try again later."⟩, []⟩ ∧
    handle sampleLib noCredentials sendsSucceed Store.empty
      (.postSubscribe { email := .str "Test@Example.com" }) =
      ⟨[("test@example.com",
          ⟨"test@example.com", .str "Anonymous", "2024-05-01T10:00:00.000Z", "active"⟩)],
        fun _ =>
          ⟨500, .outcome false "Failed to process subscription. Please try again later."⟩,
        []⟩ := by
  have h := missing_credentials_checked_per_request sampleLib noCredentials sendsSucceed
    Store.empty (Or.inl rfl)
  refine ⟨h.1 true _, ?_, ?_⟩
  · exact h.2.2.1 ⟨.str "bob@x.com", .str "Bob", .str "hi", .undefined⟩ "bob@x.com"
      rfl (by decide) rfl rfl
  · exact h.2.2.2 { email := .str "Test@Example.com" } "Test@Example.com"
      rfl (by decide) (by decide)

/-! ## The contact handler -/

/-- C9 as stated fails: with no mail credentials, the complete and valid
contact body of Bob, whose send would succeed, dispatches no e-mail and is
answered 500. -/
theorem contact_without_credentials_sends_nothing :
    ((handle sampleLib noCredentials sendsSucceed Store.empty
      (.postContact ⟨.str "bob@x.com", .str "Bob", .str "hi", .undefined⟩)).respond
      Store.empty).status = 500 ∧
    (handle sampleLib noCredentials sendsSucceed Store.empty
      (.postContact ⟨.str "bob@x.com", .str "Bob", .str "hi", .undefined⟩)).sent = [] := by
  decide

/-- C9 amended: with both mail credentials configured, the contact handler
answers 400 and dispatches nothing when one of `name`, `email`, `message` is
missing (falsy) or the `email` is a string that is not a valid address; when
the three are present, the `email` is a string that is a valid address, and
`name`, `message` and `subject` convert to strings (as strings, numbers and
booleans do), it dispatches exactly the contact notification and answers 200
with `success: true` when that send succeeds and 500 with `success: false`
when it fails. The store is unchanged in every case. -/
theorem contact_contract (lib : Lib) (cfg : Config) (w : World) (store : Store)
    (body : ReqBody) (hcreds : createTransporter cfg = .ok ()) :
    (handle lib cfg w store (.postContact body)).store = store ∧
    ((body.name.truthy = false ∨ body.email.truthy = false ∨ body.message.truthy = false ∨
        (∃ e, body.email = .str e ∧ lib.isEmail e = false)) →
      (∀ afterAwait : Store,
        ((handle lib cfg w store (.postContact body)).respond afterAwait).status = 400 ∧
        ((handle lib cfg w store (.postContact body)).respond afterAwait).payload.success
          = some false) ∧
      (handle lib cfg w store (.postContact body)).sent = []) ∧
    ((body.name.truthy = true ∧ body.email.truthy = true ∧ body.message.truthy = true ∧
        (∃ e, body.email = .str e ∧ lib.isEmail e = true) ∧
        body.name.stringifies = true ∧ body.message.stringifies = true ∧
        (subjectOrDefault body.subject).stringifies = true) →
      (handle lib cfg w store (.postContact body)).sent = [contactEmail] ∧
      (w.sendMail contactEmail = true → ∀ afterAwait : Store,
        (handle lib cfg w store (.postContact body)).respond afterAwait =
          ⟨200, .outcome true "Thank you for your message! We'll get back to you soon."⟩) ∧
      (w.sendMail contactEmail = false → ∀ afterAwait : Store,
        (handle lib cfg w store (.postContact body)).respond afterAwait =
          ⟨500, .outcome false "Failed to send message. Please try again later."⟩)) := by
  have hc : handle lib cfg w store (.postContact body) = contact lib cfg w store body := rfl
  rw [hc]
  refine ⟨contact_store lib cfg w store body, ?_, ?_⟩
  · intro hbad
    by_cases hmiss : (!body.name.truthy || !body.email.truthy || !body.message.truthy) = true
    · rw [contact]
      simp only [if_pos hmiss]
      refine ⟨fun _ => ⟨?_, ?_⟩, ?_⟩ <;> first | rfl | trivial
    · have hall : body.name.truthy = true ∧ body.email.truthy = true ∧
          body.message.truthy = true := by
        simpa [and_assoc] using hmiss
      rcases hbad with h | h | h | ⟨e, he, hv⟩
      · simp [hall.1] at h
      · simp [hall.2.1] at h
      · simp [hall.2.2] at h
      · have hval : validateEmail lib body.email = .ok false := by
          simp [he, validateEmail, hv]
        rw [contact]
        simp only [if_neg hmiss, hval]
        refine ⟨fun _ => ⟨?_, ?_⟩, ?_⟩ <;> first | rfl | trivial
  · rintro ⟨hn, hem, hm, ⟨e, he, hv⟩, hns, hms, hss⟩
    have hne : e ≠ "" := by
      intro h0
      rw [he, h0] at hem
      simp [JsValue.truthy] at hem
    have ha : lib.accepts e = true := (accepts_iff lib e).2 ⟨hne, hv⟩
    rw [contact_valid lib cfg w store body e he ha hn hm, hcreds]
    simp only [hns, hms, hss, Bool.and_true, if_true]
    refine ⟨?_, ?_, ?_⟩
    · split <;> rfl
    · intro hs afterAwait; simp [hs]
    · intro hs afterAwait; simp [hs, contactFailure]

/-- The scenarios of C9: the body of Bob is answered 200 with one e-mail
dispatched; the same body without `message` is answered 400. -/
theorem contact_contract_witness :
    (handle sampleLib sampleConfig sendsSucceed Store.empty
      (.postContact ⟨.str "bob@x.com", .str "Bob", .str "hi", .undefined⟩)).respond
      Store.empty =
      ⟨200, .outcome true "Thank you for your message! We'll get back to you soon."⟩ ∧
    (handle sampleLib sampleConfig sendsSucceed Store.empty
      (.postContact ⟨.str "bob@x.com", .str "Bob", .str "hi", .undefined⟩)).sent =
      [contactEmail] ∧
    ((handle sampleLib sampleConfig sendsSucceed Store.empty
      (.postContact ⟨.str "bob@x.com", .str "Bob", .undefined, .undefined⟩)).respond
      Store.empty).status = 400 := by
  have h1 := contact_contract sampleLib sampleConfig sendsSucceed Store.empty
    ⟨.str "bob@x.com", .str "Bob", .str "hi", .undefined⟩ rfl
  have h2 := contact_contract sampleLib sampleConfig sendsSucceed Store.empty
    ⟨.str "bob@x.com", .str "Bob", .undefined, .undefined⟩ rfl
  have hvalid := h1.2.2 ⟨rfl, rfl, rfl, ⟨"bob@x.com", rfl, by decide⟩, by decide, by decide,
    by decide⟩
  exact ⟨hvalid.2.1 rfl Store.empty, hvalid.1,
    ((h2.2.1 (Or.inr (Or.inr (Or.inl rfl)))).1 Store.empty).1⟩

/-- The slip that C9 amended leaves out, at the contact route: with the
subject `{"toString": 1}` the template of the subject line cannot be built,
nothing is sent and the response is 500. -/
theorem contact_object_subject_answers_500 :
    ((handle sampleLib sampleConfig sendsSucceed Store.empty
      (.postContact ⟨.str "bob@x.com", .str "Bob", .str "hi",
        .object (.cons "toString" (.num 1) .nil)⟩)).respond Store.empty).status = 500 ∧
    (handle sampleLib sampleConfig sendsSucceed Store.empty
      (.postContact ⟨.str "bob@x.com", .str "Bob", .str "hi",
        .object (.cons "toString" (.num 1) .nil)⟩)).sent = [] := by
  decide

/-! ## The store only grows -/

/-- C10: for every request, limiter verdict and store, each record found
under a key before the request is found under it, unchanged, afterwards; the
store afterwards is the store before, or the store before followed by one new
record, and the latter only for an admitted subscribe whose address is valid
and whose lower-cased form was not a key; every route other than the two
`POST` routes leaves the store as it was; and the health route answers 200
with `success: true`. -/
theorem store_only_grows (lib : Lib) (cfg : Config) (w : World) (store : Store)
    (admitted : Bool) (req : Request) (afterAwait : Store) :
    (∀ (k : String) (r : SubscriberRecord), store.get k = some r →
      (route lib cfg w store admitted req).store.get k = some r) ∧
    ((route lib cfg w store admitted req).store = store ∨
      ∃ body e, req = .postSubscribe body ∧ admitted = true ∧ body.email = .str e ∧
        lib.accepts e = true ∧ store.has (lib.toLowerCase e) = false ∧
        (route lib cfg w store admitted req).store =
          store ++ [(lib.toLowerCase e, newRecord lib w body e)]) ∧
    (req.isWrite = false → (route lib cfg w store admitted req).store = store) ∧
    ((route lib cfg w store admitted .getHealth).respond afterAwait).status = 200 ∧
    ((route lib cfg w store admitted .getHealth).respond afterAwait).payload.success
      = some true := by
  have hcases := route_store_cases lib cfg w store admitted req
  refine ⟨?_, hcases, ?_, ?_, ?_⟩
  · intro k r hk
    rcases hcases with h | ⟨_, _, _, _, _, _, _, h⟩
    · rw [h]; exact hk
    · rw [h]; exact Store.get_append_of_get store _ k r hk
  · intro hw
    rcases hcases with h | ⟨body, _, hreq, _, _, _, _, _⟩
    · exact h
    · rw [hreq] at hw; simp [Request.isWrite] at hw
  · cases admitted <;> rfl
  · cases admitted <;> rfl

/-! ## The invariant is kept -/

theorem storeInv_route (lib : Lib) (cfg : Config) (w : World) (store : Store)
    (admitted : Bool) (req : Request) (h : StoreInv lib store) :
    StoreInv lib (route lib cfg w store admitted req).store := by
  rcases route_store_cases lib cfg w store admitted req with
    h1 | ⟨body, e, _, _, _, _, hnew, h1⟩
  · rw [h1]; exact h
  · rw [h1]
    constructor
    · intro kv hkv
      rcases List.mem_append.1 hkv with hin | hin
      · exact h.1 kv hin
      · rw [List.mem_singleton] at hin
        subst hin
        exact ⟨rfl, ⟨e, rfl⟩, rfl⟩
    · rw [List.map_append, List.nodup_append]
      refine ⟨h.2, by simp, ?_⟩
      intro a ha hb
      simp only [List.map_cons, List.map_nil, List.mem_singleton] at hb
      subst hb
      have : store.has (lib.toLowerCase e) = true := (Store.has_iff store _).2 ha
      simp [hnew] at this

theorem storeInv_run (lib : Lib) (cfg : Config) (evs : List Event) :
    ∀ store : Store, StoreInv lib store → StoreInv lib (run lib cfg store evs) := by
  induction evs with
  | nil => intro store h; exact h
  | cons ev evs ih =>
    intro store h
    exact ih _ (storeInv_route lib cfg ev.world store ev.admitted ev.request h)

theorem storeInv_empty (lib : Lib) : StoreInv lib Store.empty :=
  ⟨fun _ h => absurd h (List.not_mem_nil _), List.nodup_nil⟩

/-- C8: in every store reached from the empty one by a sequence of requests
(whatever the limiter decides for each), every record is held under a key
equal to its own `email`, that `email` is left unchanged by `toLowerCase`,
its status is `active`, and the lower-cased e-mails of the records are
pairwise distinct; a subscribe whose lower-cased address is already a key is
answered 400 or 409, 409 when the address is valid, and leaves the store as
it was. Lower-casing is taken to be idempotent. -/
theorem reachable_store_invariant (lib : Lib) (cfg : Config)
    (hidem : ∀ s, lib.toLowerCase (lib.toLowerCase s) = lib.toLowerCase s)
    (evs : List Event) :
    (∀ kv ∈ run lib cfg Store.empty evs,
      kv.2.email = kv.1 ∧ lib.toLowerCase kv.2.email = kv.2.email ∧
        kv.2.status = "active") ∧
    ((run lib cfg Store.empty evs).map (fun kv => lib.toLowerCase kv.2.email)).Nodup ∧
    ∀ (w : World) (body : ReqBody) (e : String) (afterAwait : Store),
      body.email = .str e →
      (run lib cfg Store.empty evs).has (lib.toLowerCase e) = true →
      (handle lib cfg w (run lib cfg Store.empty evs) (.postSubscribe body)).store =
        run lib cfg Store.empty evs ∧
      (((handle lib cfg w (run lib cfg Store.empty evs)
          (.postSubscribe body)).respond afterAwait).status = 400 ∨
        ((handle lib cfg w (run lib cfg Store.empty evs)
          (.postSubscribe body)).respond afterAwait).status = 409) ∧
      (lib.accepts e = true →
        ((handle lib cfg w (run lib cfg Store.empty evs)
          (.postSubscribe body)).respond afterAwait).status = 409) := by
  have hinv := storeInv_run lib cfg evs Store.empty (storeInv_empty lib)
  generalize run lib cfg Store.empty evs = s at hinv
  have hfix : ∀ kv ∈ s, lib.toLowerCase kv.2.email = kv.1 := by
    intro kv hkv
    obtain ⟨h1, ⟨e, h2⟩, _⟩ := hinv.1 kv hkv
    rw [h1, h2, hidem]
  refine ⟨?_, ?_, ?_⟩
  · intro kv hkv
    obtain ⟨h1, _, h3⟩ := hinv.1 kv hkv
    refine ⟨h1, ?_, h3⟩
    rw [hfix kv hkv, h1]
  · have hmap : s.map (fun kv => lib.toLowerCase kv.2.email) = s.map Prod.fst :=
      List.map_congr_left hfix
    rw [hmap]; exact hinv.2
  · intro w body e afterAwait he hdup
    have hs : handle lib cfg w s (.postSubscribe body) = subscribe lib cfg w s body := rfl
    rw [hs]
    cases ha : lib.accepts e
    · rw [subscribe_rejects lib cfg w s body e he ha]
      exact ⟨rfl, Or.inl rfl, fun h => by simp at h⟩
    · rw [subscribe_duplicate lib cfg w s body e he ha hdup]
      exact ⟨rfl, Or.inr rfl, fun _ => rfl⟩

/-- A scenario of C8: after `Test@Example.com` and `Bob@X.com` have
subscribed, the two keys are the lower-cased addresses, and a subscribe for
`TEST@EXAMPLE.COM` is answered 409 without touching the store. -/
theorem reachable_store_invariant_witness :
    ((run sampleLib sampleConfig Store.empty
        [⟨sendsSucceed, true, .postSubscribe { email := .str "Test@Example.com" }⟩,
          ⟨sendsFail, true, .postSubscribe { email := .str "Bob@X.com", name := .str "Bob" }⟩]
      ).map (fun kv => sampleLib.toLowerCase kv.2.email)).Nodup ∧
    (run sampleLib sampleConfig Store.empty
        [⟨sendsSucceed, true, .postSubscribe { email := .str "Test@Example.com" }⟩,
          ⟨sendsFail, true, .postSubscribe { email := .str "Bob@X.com", name := .str "Bob" }⟩]
      ).map Prod.fst = ["test@example.com", "bob@x.com"] ∧
    ((handle sampleLib sampleConfig sendsSucceed
      (run sampleLib sampleConfig Store.empty
        [⟨sendsSucceed, true, .postSubscribe { email := .str "Test@Example.com" }⟩,
          ⟨sendsFail, true, .postSubscribe { email := .str "Bob@X.com", name := .str "Bob" }⟩])
      (.postSubscribe { email := .str "TEST@EXAMPLE.COM" })).respond Store.empty).status
      = 409 := by
  have h := reachable_store_invariant sampleLib sampleConfig asciiLower_idem
    [⟨sendsSucceed, true, .postSubscribe { email := .str "Test@Example.com" }⟩,
      ⟨sendsFail, true, .postSubscribe { email := .str "Bob@X.com", name := .str "Bob" }⟩]
  refine ⟨h.2.1, by decide, ?_⟩
  exact (h.2.2 sendsSucceed { email := .str "TEST@EXAMPLE.COM" } "TEST@EXAMPLE.COM"
    Store.empty rfl (by decide)).2.2 (by decide)

/-! ## The rate limiter in front of the write routes -/

theorem handle_status_ne_429 (lib : Lib) (cfg : Config) (w : World) (store : Store)
    (req : Request) (afterAwait : Store) :
    ((handle lib cfg w store req).respond afterAwait).status ≠ 429 := by
  cases req with
  | getRoot => simp [handle]
  | getHealth => simp [handle]
  | getSubscribersCount => simp [handle]
  | getSubscribers k => simp only [handle, subscribers]; split <;> simp
  | getAdmin k => simp only [handle, admin]; split <;> simp
  | postContact body =>
    simp only [handle, contact]
    split
    · simp
    · split
      · simp [contactFailure]
      · simp
      · split
        · simp [contactFailure]
        · split
          · simp [contactFailure]
          · split <;> simp [contactFailure]
  | postSubscribe body =>
    simp only [handle, subscribe]
    split
    · simp
    · split
      · simp [subscribeFailure]
      · simp
      · split
        · simp [subscribeFailure]
        · split
          · simp
          · split
            · simp [subscribeFailure]
            · split
              · simp [subscribeFailure]
              · split <;> simp [subscribeFailure]

theorem serve_limiter_other (lib : Lib) (cfg : Config) (σ : Server) (a : Arrival)
    (s : String) (h : ¬ (a.source = s ∧ a.request.isWrite = true)) :
    (serve lib cfg σ a).server.limiter s = σ.limiter s := by
  unfold serve
  by_cases hw : a.request.isWrite = true
  · have hs : s ≠ a.source := fun hs => h ⟨hs.symm, hw⟩
    simp only [hw, if_true]
    unfold RateLimiter.allow
    split
    · split
      · split
        · simp [hs]
        · rfl
      · simp [hs]
    · simp [hs]
  · simp [hw]

theorem serve_in_window (lib : Lib) (cfg : Config) (σ : Server) (a : Arrival)
    (win : RateLimitWindow) (hw : a.request.isWrite = true)
    (hwin : σ.limiter a.source = some win) (hin : a.time < win.windowStart + windowMs)
    (hroom : win.count < maxRequests) :
    (serve lib cfg σ a).server.limiter a.source = some ⟨win.windowStart, win.count + 1⟩ ∧
    (serve lib cfg σ a).respond = (handle lib cfg a.world σ.store a.request).respond := by
  simp [serve, hw, RateLimiter.allow, hwin, hin, hroom, route]

theorem serve_full_window (lib : Lib) (cfg : Config) (σ : Server) (a : Arrival)
    (win : RateLimitWindow) (hw : a.request.isWrite = true)
    (hwin : σ.limiter a.source = some win) (hin : a.time < win.windowStart + windowMs)
    (hfull : win.count = maxRequests) :
    ((serve lib cfg σ a).respond = fun _ => tooManyRequests) ∧
    (serve lib cfg σ a).server.store = σ.store ∧
    (serve lib cfg σ a).sent = [] ∧
    (serve lib cfg σ a).server.limiter = σ.limiter := by
  simp [serve, hw, RateLimiter.allow, hwin, hin, hfull, route]

theorem serve_new_window (lib : Lib) (cfg : Config) (σ : Server) (a : Arrival)
    (hw : a.request.isWrite = true)
    (hfresh : ∀ win, σ.limiter a.source = some win → win.windowStart + windowMs ≤ a.time) :
    (serve lib cfg σ a).server.limiter a.source = some ⟨a.time, 1⟩ ∧
    (serve lib cfg σ a).respond = (handle lib cfg a.world σ.store a.request).respond := by
  cases hwin : σ.limiter a.source with
  | none => simp [serve, hw, RateLimiter.allow, hwin, route]
  | some win =>
    have h := hfresh win hwin
    have hn : ¬ a.time < win.windowStart + windowMs := by omega
    simp [serve, hw, RateLimiter.allow, hwin, hn, route]

theorem writesFrom_cons (s : String) (a : Arrival) (as : List Arrival) :
    writesFrom s (a :: as) =
      if a.source = s ∧ a.request.isWrite = true then a :: writesFrom s as
      else writesFrom s as := by
  by_cases h : a.source = s ∧ a.request.isWrite = true
  · simp [writesFrom, List.filter_cons, h]
  · rw [if_neg h]
    simp only [writesFrom, List.filter_cons]
    have : (a.source == s && a.request.isWrite) = false := by
      by_cases hs : a.source = s
      · have hw : a.request.isWrite = false := by
          cases hq : a.request.isWrite
          · rfl
          · exact absurd ⟨hs, hq⟩ h
        simp [hw]
      · simp [hs]
    simp [this]

theorem writesFrom_append (s : String) (as bs : List Arrival) :
    writesFrom s (as ++ bs) = writesFrom s as ++ writesFrom s bs := by
  simp [writesFrom]

theorem serveAll_append (lib : Lib) (cfg : Config) (as bs : List Arrival) :
    ∀ σ : Server, serveAll lib cfg σ (as ++ bs) =
      serveAll lib cfg (serveAll lib cfg σ as) bs := by
  induction as with
  | nil => intro σ; rfl
  | cons a as ih => intro σ; exact ih _

/-- While the window of `s` has room, each write request of `s` inside it is
allowed and counted. -/
theorem window_fills (lib : Lib) (cfg : Config) (s : String) (as : List Arrival) :
    ∀ (σ : Server) (start c : Nat), σ.limiter s = some ⟨start, c⟩ →
      (∀ a ∈ writesFrom s as, a.time < start + windowMs) →
      c + (writesFrom s as).length ≤ maxRequests →
      (serveAll lib cfg σ as).limiter s = some ⟨start, c + (writesFrom s as).length⟩ ∧
      ∀ p ∈ serveLog lib cfg σ as, p.arrival.source = s → p.arrival.request.isWrite = true →
        p.served.respond =
          (handle lib cfg p.arrival.world p.before.store p.arrival.request).respond := by
  induction as with
  | nil =>
    intro σ start c hwin _ _
    exact ⟨by simpa [serveAll, writesFrom] using hwin, by simp [serveLog]⟩
  | cons a as ih =>
    intro σ start c hwin htimes hcount
    rw [writesFrom_cons] at htimes hcount ⊢
    by_cases h : a.source = s ∧ a.request.isWrite = true
    · rw [if_pos h] at htimes hcount ⊢
      obtain ⟨hs, hw⟩ := h
      have hwin' : σ.limiter a.source = some ⟨start, c⟩ := by rw [hs]; exact hwin
      have hlen : (a :: writesFrom s as).length = (writesFrom s as).length + 1 := rfl
      rw [hlen] at hcount ⊢
      have hstep := serve_in_window lib cfg σ a ⟨start, c⟩ hw hwin'
        (htimes a (List.mem_cons_self _ _)) (by show c < maxRequests; omega)
      rw [hs] at hstep
      have hrec := ih (serve lib cfg σ a).server start (c + 1) hstep.1
        (fun b hb => htimes b (List.mem_cons_of_mem _ hb)) (by omega)
      refine ⟨?_, ?_⟩
      · have : c + ((writesFrom s as).length + 1) = c + 1 + (writesFrom s as).length := by
          omega
        rw [this]; exact hrec.1
      · intro p hp
        rcases List.mem_cons.1 hp with hp | hp
        · subst hp
          intro _ _
          exact hstep.2
        · exact hrec.2 p hp
    · rw [if_neg h] at htimes hcount ⊢
      have hkeep := serve_limiter_other lib cfg σ a s h
      have hrec := ih (serve lib cfg σ a).server start c (by rw [hkeep]; exact hwin)
        htimes hcount
      refine ⟨hrec.1, ?_⟩
      intro p hp
      rcases List.mem_cons.1 hp with hp | hp
      · subst hp
        intro h1 h2
        exact absurd ⟨h1, h2⟩ h
      · exact hrec.2 p hp

/-- Once the window of `s` is full, each write request of `s` inside it is
rejected and the window stays as it is. -/
theorem window_stays_full (lib : Lib) (cfg : Config) (s : String) (as : List Arrival) :
    ∀ (σ : Server) (start : Nat), σ.limiter s = some ⟨start, maxRequests⟩ →
      (∀ a ∈ writesFrom s as, a.time < start + windowMs) →
      (serveAll lib cfg σ as).limiter s = some ⟨start, maxRequests⟩ ∧
      ∀ p ∈ serveLog lib cfg σ as, p.arrival.source = s → p.arrival.request.isWrite = true →
        (p.served.respond = fun _ => tooManyRequests) ∧
        p.served.server.store = p.before.store ∧ p.served.sent = [] := by
  induction as with
  | nil =>
    intro σ start hwin _
    exact ⟨by simpa [serveAll] using hwin, by simp [serveLog]⟩
  | cons a as ih =>
    intro σ start hwin htimes
    rw [writesFrom_cons] at htimes
    by_cases h : a.source = s ∧ a.request.isWrite = true
    · rw [if_pos h] at htimes
      obtain ⟨hs, hw⟩ := h
      have hwin' : σ.limiter a.source = some ⟨start, maxRequests⟩ := by rw [hs]; exact hwin
      obtain ⟨h1, h2, h3, h4⟩ := serve_full_window lib cfg σ a ⟨start, maxRequests⟩ hw hwin'
        (htimes a (List.mem_cons_self _ _)) rfl
      have hrec := ih (serve lib cfg σ a).server start (by rw [h4]; exact hwin)
        (fun b hb => htimes b (List.mem_cons_of_mem _ hb))
      refine ⟨hrec.1, ?_⟩
      intro p hp
      rcases List.mem_cons.1 hp with hp | hp
      · subst hp
        intro _ _
        exact ⟨h1, h2, h3⟩
      · exact hrec.2 p hp
    · rw [if_neg h] at htimes
      have hkeep := serve_limiter_other lib cfg σ a s h
      have hrec := ih (serve lib cfg σ a).server start (by rw [hkeep]; exact hwin) htimes
      refine ⟨hrec.1, ?_⟩
      intro p hp
      rcases List.mem_cons.1 hp with hp | hp
      · subst hp
        intro h1 h2
        exact absurd ⟨h1, h2⟩ h
      · exact hrec.2 p hp

/-- C6: for every source identity `s` and every state of the server in which
`s` has no running window, take a write request from `s` (it opens a window),
then any arrivals `during` that contain exactly four more write requests from
`s` (to either `POST` route, in any mix, interleaved with any requests of
other sources), then any arrivals `excess`, the write requests of `s` all
inside the 15 minutes of that window. The first five write requests of `s`
are all allowed: each gets the response of its handler, never 429. Every
write request of `s` in `excess`, the sixth first, is answered 429 with the
fixed message, leaves the store as it was and dispatches no e-mail. After all
of these, rejections included, a write request from `s` once the window has
elapsed reaches its handler again. -/
theorem sixth_write_is_rejected (lib : Lib) (cfg : Config) (σ : Server) (s : String)
    (opening : Arrival) (during excess : List Arrival) (next : Arrival)
    (hsrc : opening.source = s) (hw : opening.request.isWrite = true)
    (hfresh : ∀ win, σ.limiter s = some win → win.windowStart + windowMs ≤ opening.time)
    (hduring : ∀ a ∈ writesFrom s during, a.time < opening.time + windowMs)
    (hfour : (writesFrom s during).length = 4)
    (hexcess : ∀ a ∈ writesFrom s excess, a.time < opening.time + windowMs)
    (hnsrc : next.source = s) (hnw : next.request.isWrite = true)
    (hnext : opening.time + windowMs ≤ next.time) :
    (∀ p ∈ serveLog lib cfg σ (opening :: during),
      p.arrival.source = s → p.arrival.request.isWrite = true →
      p.served.respond =
        (handle lib cfg p.arrival.world p.before.store p.arrival.request).respond ∧
      ∀ afterAwait : Store, (p.served.respond afterAwait).status ≠ 429) ∧
    (∀ p ∈ serveLog lib cfg (serveAll lib cfg σ (opening :: during)) excess,
      p.arrival.source = s → p.arrival.request.isWrite = true →
      (∀ afterAwait : Store, p.served.respond afterAwait =
        ⟨429, .limited "Too many email submissions from this IP, please try again later."⟩) ∧
      p.served.server.store = p.before.store ∧ p.served.sent = []) ∧
    (serve lib cfg (serveAll lib cfg σ (opening :: during ++ excess)) next).respond =
      (handle lib cfg next.world (serveAll lib cfg σ (opening :: during ++ excess)).store
        next.request).respond ∧
    ∀ afterAwait : Store,
      ((serve lib cfg (serveAll lib cfg σ (opening :: during ++ excess)) next).respond
        afterAwait).status ≠ 429 := by
  subst hsrc
  have hopen := serve_new_window lib cfg σ opening hw hfresh
  have hfill := window_fills lib cfg opening.source during (serve lib cfg σ opening).server
    opening.time 1 hopen.1 hduring (by rw [hfour]; decide)
  rw [hfour] at hfill
  have hfull : (serveAll lib cfg σ (opening :: during)).limiter opening.source =
      some ⟨opening.time, maxRequests⟩ := hfill.1
  have hstay := window_stays_full lib cfg opening.source excess
    (serveAll lib cfg σ (opening :: during)) opening.time hfull hexcess
  have hsplit : serveAll lib cfg σ (opening :: during ++ excess) =
      serveAll lib cfg (serveAll lib cfg σ (opening :: during)) excess :=
    serveAll_append lib cfg (opening :: during) excess σ
  have hstate : (serveAll lib cfg σ (opening :: during ++ excess)).limiter next.source =
      some ⟨opening.time, maxRequests⟩ := by
    rw [hnsrc, hsplit]; exact hstay.1
  have hnew := serve_new_window lib cfg (serveAll lib cfg σ (opening :: during ++ excess))
    next hnw (by
      intro win hwin
      rw [hstate] at hwin
      cases hwin
      exact hnext)
  refine ⟨?_, ?_, hnew.2, ?_⟩
  · intro p hp hps hpw
    have hresp : p.served.respond =
        (handle lib cfg p.arrival.world p.before.store p.arrival.request).respond := by
      rcases List.mem_cons.1 hp with hp | hp
      · subst hp; exact hopen.2
      · exact hfill.2 p hp hps hpw
    refine ⟨hresp, ?_⟩
    intro afterAwait
    rw [hresp]
    exact handle_status_ne_429 lib cfg _ _ _ afterAwait
  · intro p hp hps hpw
    obtain ⟨h1, h2, h3⟩ := hstay.2 p hp hps hpw
    exact ⟨fun afterAwait => by rw [h1]; rfl, h2, h3⟩
  · intro afterAwait
    rw [hnew.2]
    exact handle_status_ne_429 lib cfg _ _ _ afterAwait

/-- The scenario of C6: after five write requests of one source within the
window, its sixth and seventh inside the window are answered 429, and its
next one, at 900 000 ms, is answered 200. -/
theorem sixth_write_is_rejected_witness :
    ((serveLog sampleLib sampleConfig
        (serveAll sampleLib sampleConfig ⟨RateLimiter.empty, Store.empty⟩
          (⟨client, 0, sendsSucceed, .postSubscribe { email := .str "Test@Example.com" }⟩
            :: burst))
        excess).map (fun p => (p.served.respond Store.empty).status)) = [429, 200, 429] ∧
    ((serve sampleLib sampleConfig
      (serveAll sampleLib sampleConfig ⟨RateLimiter.empty, Store.empty⟩
        (⟨client, 0, sendsSucceed, .postSubscribe { email := .str "Test@Example.com" }⟩
          :: burst ++ excess))
      ⟨client, 900000, sendsSucceed, .postSubscribe { email := .str "new@example.com" }⟩
      ).respond Store.empty).status = 200 := by
  have h := sixth_write_is_rejected sampleLib sampleConfig ⟨RateLimiter.empty, Store.empty⟩
    client ⟨client, 0, sendsSucceed, .postSubscribe { email := .str "Test@Example.com" }⟩
    burst excess
    ⟨client, 900000, sendsSucceed, .postSubscribe { email := .str "new@example.com" }⟩
    rfl rfl (by intro win hwin; simp [RateLimiter.empty] at hwin) (by decide) (by decide)
    (by decide) rfl rfl (by decide)
  refine ⟨by decide, ?_⟩
  rw [h.2.2.1]
  decide

end ToaEmail
